import Mathlib

/-!
Verification of the session controller of `dongdong-strapi-v5-app`.

The controller (src/unnamed/part_000) exposes three handlers:
  * `customLogin`   — POST /session/login: checks identifier/password, issues
    an access token, signs a refresh token and stores it in an HttpOnly cookie;
  * `refreshToken`  — POST /session/refresh: verifies the refresh cookie and
    mints a fresh access token (the refresh cookie is never touched);
  * `logout`        — POST /session/logout: clears the refresh cookie and
    returns `{ok: true}`.

Shallow embedding conventions:
  * a user record as seen by `sanitizeUser` is an association list of field
    names to string values (JS objects have no duplicate keys; rest
    destructuring keeps the remaining keys in order, which `List.filter`
    mirrors; the embedding is pure, so the input is never mutated);
  * `jsonwebtoken` is modelled symbolically: a signed token remembers its
    payload, the signing secret and its absolute expiry instant; `verify`
    checks (in the library's order) well-formedness, then the secret, then
    expiry against the supplied clock, exactly the three failure kinds the
    library raises.  Times are in milliseconds throughout (the library uses
    seconds internally; the scale is irrelevant to the properties proved);
  * `Number` applied to a digit string is modelled as the exact decimal value
    (`digitsVal`);
  * missing body fields and empty strings are conflated: the handler tests
    JS falsiness (`!identifier || !password`) before any other use, so the two
    behave identically, and both are modelled as `""`;
  * the external collaborators (user store, password check, the Strapi access
    token authority) are parameters, per their contracts: a total lookup and
    a total boolean password check;
  * a handler's result is a `Response`: an `Outcome` (HTTP body/status) plus
    the list of `ctx.cookies.set` operations it performed.  `Outcome.thrown`
    marks an exception escaping the handler; the `try`/`catch` of
    `refreshToken` is modelled by `tryCatchJS`.
-/

/-- Field-name/value association list standing for a JS user object. -/
abbrev UserRecord := List (String × String)

/-- The three credential-adjacent keys removed by `sanitizeUser`. -/
def sensitiveKey (k : String) : Bool :=
  k == "password" || k == "resetPasswordToken" || k == "confirmationToken"

/-- `sanitizeUser(user)`: falsy input is returned unchanged; otherwise rest
destructuring drops `password`, `resetPasswordToken`, `confirmationToken`. -/
def sanitizeUser : Option UserRecord → Option UserRecord
  | none => none
  | some u => some (u.filter (fun kv => !sensitiveKey kv.1))

/-- Exact decimal value of a digit string (the `Number(match[1])` step). -/
def digitsVal (ds : List Char) : Nat :=
  ds.foldl (fun acc c => acc * 10 + (c.toNat - Char.toNat '0')) 0

/-- The per-unit millisecond factors of `parseExpiresToMs`'s `map`. -/
def unitFactor : Char → Option Nat
  | 's' => some 1000
  | 'm' => some 60000
  | 'h' => some 3600000
  | 'd' => some 86400000
  | _ => none

/-- `parseExpiresToMs(expires)`.  The regex `^(\d+)([smhd])$` matches exactly
when the string is one or more digits followed by a single unit letter; on a
match the result is `Number(digits) * map[unit]`, otherwise the function
throws `Invalid expires format`. -/
def parseExpiresToMs (expires : String) : Except String Nat :=
  let cs := expires.data
  match cs.getLast? with
  | none => .error ("Invalid expires format: " ++ expires)
  | some u =>
    match unitFactor u with
    | none => .error ("Invalid expires format: " ++ expires)
    | some f =>
      let ds := cs.dropLast
      if ds.isEmpty || !ds.all Char.isDigit then
        .error ("Invalid expires format: " ++ expires)
      else
        .ok (digitsVal ds * f)

/-- The module-level environment configuration: `REFRESH_JWT_SECRET`,
`ACCESS_TOKEN_EXPIRES`, `REFRESH_TOKEN_EXPIRES` (after their `||` defaults
`"change-me"`, `"15m"`, `"7d"` have been applied). -/
structure Env where
  refreshSecret : String
  accessExpires : String
  refreshExpires : String
deriving DecidableEq, Repr

/-- The module state after a successful load: the environment together with
`refreshMaxAge`, the constant computed once at module load. -/
structure AppModule where
  env : Env
  refreshMaxAge : Nat
deriving DecidableEq, Repr

/-- AppModule load: `const refreshMaxAge = parseExpiresToMs(REFRESH_EXPIRES_IN)`
throws at process start if the configured string is malformed. -/
def loadModule (env : Env) : Except String AppModule :=
  match parseExpiresToMs env.refreshExpires with
  | .ok m => .ok ⟨env, m⟩
  | .error e => .error e

/-- `const REFRESH_COOKIE_NAME = "refreshToken"`. -/
def REFRESH_COOKIE_NAME : String := "refreshToken"

/-- A symbolic `jsonwebtoken` token: either a well-formed token carrying its
payload (`{id, type}`), the secret it was signed with and its absolute expiry
instant, or a malformed string. -/
inductive Token
  | signed (id : Nat) (typ : String) (secret : String) (exp : Nat)
  | malformed (raw : String)
deriving DecidableEq, Repr

/-- The decoded refresh payload `{ id: number; type: string }`. -/
structure RefreshPayload where
  id : Nat
  typ : String
deriving DecidableEq, Repr

/-- The three failure kinds of `jwt.verify`: `JsonWebTokenError` on a
malformed token, `invalid signature`, and `TokenExpiredError`. -/
inductive VerifyError
  | malformedToken
  | badSignature
  | expired
deriving DecidableEq, Repr

/-- `jwt.sign(payload, secret, {expiresIn})`: the expiry instant is the
signing clock plus the lifetime.  `jsonwebtoken` parses the `expiresIn`
duration string with the same `<n><unit>` grammar as `parseExpiresToMs`, so
the caller passes the already-converted lifetime. -/
def jwtSign (id : Nat) (typ : String) (secret : String) (now lifetime : Nat) : Token :=
  .signed id typ secret (now + lifetime)

/-- `jwt.verify(token, secret)` at clock `now`: decode, check the signature
against `secret`, then reject when `now` has reached the expiry instant. -/
def jwtVerify (t : Token) (secret : String) (now : Nat) : Except VerifyError RefreshPayload :=
  match t with
  | .malformed _ => .error .malformedToken
  | .signed id typ sec exp =>
    if sec != secret then .error .badSignature
    else if exp ≤ now then .error .expired
    else .ok ⟨id, typ⟩

/-- An access token issued by the Strapi jwt service:
`jwt.issue({id}, {expiresIn})` at the issue instant. -/
structure AccessToken where
  id : Nat
  expiresIn : String
  issuedAt : Nat
deriving DecidableEq, Repr

/-- The external access-token authority's `issue` call. -/
def issueAccess (id : Nat) (expiresIn : String) (now : Nat) : AccessToken :=
  ⟨id, expiresIn, now⟩

/-- A user row of `plugin::users-permissions.user`: the fields the controller
reads (`id`, `email`, `username`, `password`) plus the rest of the row.
`toRecord` is the full object handed to `sanitizeUser`. -/
structure User where
  id : Nat
  email : String
  username : String
  password : String
  resetPasswordToken : String
  confirmationToken : String
  extra : UserRecord
deriving DecidableEq, Repr

/-- The user row as the open JS object that reaches `sanitizeUser`. -/
def User.toRecord (u : User) : UserRecord :=
  [("id", toString u.id), ("email", u.email), ("username", u.username),
   ("password", u.password), ("resetPasswordToken", u.resetPasswordToken),
   ("confirmationToken", u.confirmationToken)] ++ u.extra

/-- `findOne({where: {$or: [{email}, {username}]}})` over the user store. -/
def findByIdentifier (db : List User) (identifier : String) : Option User :=
  db.find? (fun u => u.email == identifier || u.username == identifier)

/-- `findOne({where: {id}})` over the user store. -/
def findById (db : List User) (i : Nat) : Option User :=
  db.find? (fun u => u.id == i)

/-- The request data the handlers consult for transport security:
`ctx.request.protocol` and `ctx.request.secure`. -/
structure Request where
  protocol : String
  secure : Bool
deriving DecidableEq, Repr

/-- `ctx.request.protocol === "https" || ctx.request.secure === true`,
computed identically in `customLogin` and `logout`. -/
def isHttps (req : Request) : Bool :=
  req.protocol == "https" || req.secure == true

/-- The value stored by a `ctx.cookies.set` call: the empty string used by
`logout`, or a refresh token. -/
inductive CookieValue
  | empty
  | tok (t : Token)
deriving DecidableEq, Repr

/-- One `ctx.cookies.set(name, value, options)` operation. -/
structure SetCookieOp where
  name : String
  value : CookieValue
  httpOnly : Bool
  secure : Bool
  sameSite : String
  path : String
  maxAge : Nat
deriving DecidableEq, Repr

/-- The HTTP outcome of a handler: `ctx.badRequest(msg)`,
`ctx.unauthorized(msg)`, the `{jwt, user}` success body of login/refresh, the
`{ok: true}` body of logout, or an exception escaping the handler. -/
inductive Outcome
  | badRequest (msg : String)
  | unauthorized (msg : String)
  | okLogin (jwt : AccessToken) (user : Option UserRecord)
  | okAck
  | thrown
deriving DecidableEq, Repr

/-- A handler's result: its outcome plus the `ctx.cookies.set` operations it
performed, in order. -/
structure Response where
  outcome : Outcome
  cookies : List SetCookieOp
deriving DecidableEq, Repr

/-- A JS `try { body } catch { handler }`: an exception escaping the body is
replaced by the catch result; cookies already set inside the body survive. -/
def tryCatchJS (body handler : Response) : Response :=
  match body.outcome with
  | .thrown => ⟨handler.outcome, body.cookies ++ handler.cookies⟩
  | _ => body

/-- `customLogin(ctx)`: falsiness check on `identifier`/`password`, user
lookup by either field, password check, access- and refresh-token issuance,
refresh cookie with attributes from the transport-security detection, and the
`{jwt, user: sanitizeUser(user)}` body. -/
def customLogin (mod : AppModule) (db : List User) (vp : String → String → Bool)
    (now : Nat) (req : Request) (identifier password : String) : Response :=
  if identifier == "" || password == "" then
    ⟨.badRequest "identifier, password 필수", []⟩
  else
    match findByIdentifier db identifier with
    | none => ⟨.unauthorized "잘못된 아이디/비밀번호입니다.", []⟩
    | some user =>
      if !vp password user.password then
        ⟨.unauthorized "잘못된 아이디/비밀번호입니다.", []⟩
      else
        let accessToken := issueAccess user.id mod.env.accessExpires now
        let refreshTok :=
          jwtSign user.id "refresh" mod.env.refreshSecret now mod.refreshMaxAge
        let https := isHttps req
        ⟨.okLogin accessToken (sanitizeUser (some user.toRecord)),
         [{ name := REFRESH_COOKIE_NAME, value := .tok refreshTok,
            httpOnly := true, secure := https,
            sameSite := if https then "none" else "lax",
            path := "/", maxAge := mod.refreshMaxAge }]⟩

/-- The body of `refreshToken`'s `try` block, with a `jwt.verify` failure
surfacing as a thrown exception. -/
def refreshTryBody (mod : AppModule) (db : List User) (now : Nat) (token : Token) :
    Response :=
  match jwtVerify token mod.env.refreshSecret now with
  | .error _ => ⟨.thrown, []⟩
  | .ok payload =>
    if payload.typ != "refresh" then
      ⟨.unauthorized "올바르지 않은 리프레시 토큰", []⟩
    else
      match findById db payload.id with
      | none => ⟨.unauthorized "유저가 존재하지 않습니다.", []⟩
      | some user =>
        ⟨.okLogin (issueAccess user.id mod.env.accessExpires now)
            (sanitizeUser (some user.toRecord)), []⟩

/-- `refreshToken(ctx)`: missing-cookie check, then the `try`/`catch` that
turns any `jwt.verify` failure into the expired-or-invalid unauthorized
response. -/
def refreshTokenHandler (mod : AppModule) (db : List User) (now : Nat)
    (cookie : Option Token) : Response :=
  match cookie with
  | none => ⟨.unauthorized "refresh token 없음", []⟩
  | some token =>
    tryCatchJS (refreshTryBody mod db now token)
      ⟨.unauthorized "만료되었거나 유효하지 않은 리프레시 토큰", []⟩

/-- `logout(ctx)`: ignores any presented cookie, clears the refresh cookie
(same name, empty value, `maxAge: 0`, same attribute computation as login)
and answers `{ok: true}`. -/
def logout (req : Request) (_cookie : Option Token) : Response :=
  let https := isHttps req
  ⟨.okAck,
   [{ name := REFRESH_COOKIE_NAME, value := .empty, httpOnly := true,
      secure := https, sameSite := if https then "none" else "lax",
      path := "/", maxAge := 0 }]⟩

/-! Concrete fixtures used to instantiate theorems with hypotheses. -/

/-- The default environment: all three variables unset. -/
def testEnv : Env := ⟨"change-me", "15m", "7d"⟩

/-- The module state after loading `testEnv` (7 days = 604800000 ms). -/
def testMod : AppModule := ⟨testEnv, 604800000⟩

/-- A sample user row. -/
def alice : User :=
  ⟨1, "alice@example.com", "alice", "hashed-pw", "rpt", "ct", [("provider", "local")]⟩

/-- A password checker that accepts everything. -/
def alwaysValid : String → String → Bool := fun _ _ => true

/-- A password checker that rejects everything. -/
def neverValid : String → String → Bool := fun _ _ => false

/-- The refresh cookie that login sets for `alice` at clock 0 over plain
HTTP under `testMod`. -/
def testLoginCookie : SetCookieOp :=
  { name := "refreshToken",
    value := .tok (.signed 1 "refresh" "change-me" 604800000),
    httpOnly := true, secure := false, sameSite := "lax",
    path := "/", maxAge := 604800000 }

/-! Helper lemmas. -/

/-- On a digits-then-unit string the parser returns `value * factor`. -/
theorem parse_ok_of_form (ds : List Char) (u : Char) (f : Nat)
    (hne : ds ≠ []) (hdig : ds.all Char.isDigit = true) (hf : unitFactor u = some f) :
    parseExpiresToMs ⟨ds ++ [u]⟩ = .ok (digitsVal ds * f) := by
  have hdata : (String.mk (ds ++ [u])).data = ds ++ [u] := rfl
  simp only [parseExpiresToMs, hdata, List.getLast?_concat, List.dropLast_concat, hf, hdig]
  simp [List.isEmpty_iff, hne]

/-- On any string not of the digits-then-unit shape the parser fails. -/
theorem parse_error_of_not_form (s : String)
    (h : ¬ ∃ (ds : List Char) (u : Char), s.data = ds ++ [u] ∧ ds ≠ [] ∧
        ds.all Char.isDigit = true ∧ (unitFactor u).isSome = true) :
    ∃ e, parseExpiresToMs s = .error e := by
  by_contra hno
  push_neg at hno
  apply h
  rcases hget : s.data.getLast? with _ | u
  · exact absurd (show parseExpiresToMs s = .error ("Invalid expires format: " ++ s) by
      simp [parseExpiresToMs, hget]) (hno _)
  · rcases hf : unitFactor u with _ | f
    · exact absurd (show parseExpiresToMs s = .error ("Invalid expires format: " ++ s) by
        simp [parseExpiresToMs, hget, hf]) (hno _)
    · by_cases hc : (s.data.dropLast.isEmpty || !s.data.dropLast.all Char.isDigit) = true
      · exact absurd (show parseExpiresToMs s = .error ("Invalid expires format: " ++ s) by
          simp [parseExpiresToMs, hget, hf, hc]) (hno _)
      · have hsne : s.data ≠ [] := by
          intro he
          rw [he] at hget
          exact Option.noConfusion hget
        have hu : u = s.data.getLast hsne := by
          have := List.getLast?_eq_getLast s.data hsne
          rw [this] at hget
          exact (Option.some.injEq _ _ ▸ hget.symm)
        simp only [Bool.or_eq_true, Bool.not_eq_true', not_or] at hc
        refine ⟨s.data.dropLast, u, ?_, ?_, ?_, by simp [hf]⟩
        · rw [hu]
          exact (List.dropLast_append_getLast hsne).symm
        · intro he
          rw [he] at hc
          simp at hc
        · rcases hc with ⟨-, hall⟩
          exact Bool.not_eq_false _ ▸ (by simpa using hall)

/-- Membership in the sanitized record. -/
theorem mem_sanitize {u : UserRecord} {k v : String} :
    (k, v) ∈ u.filter (fun kv => !sensitiveKey kv.1) ↔
      ((k, v) ∈ u ∧ k ≠ "password" ∧ k ≠ "resetPasswordToken" ∧ k ≠ "confirmationToken") := by
  simp [List.mem_filter, sensitiveKey, not_or, and_assoc]

/-- Inversion of a successful login: the success branch was taken, and every
component of the response is determined by the user that was found. -/
theorem customLogin_ok_inv {mod : AppModule} {db : List User}
    {vp : String → String → Bool} {now : Nat} {req : Request} {idf pw : String}
    {jwt : AccessToken} {usr : Option UserRecord} {cks : List SetCookieOp}
    (h : customLogin mod db vp now req idf pw = ⟨.okLogin jwt usr, cks⟩) :
    ∃ user, findByIdentifier db idf = some user ∧ vp pw user.password = true ∧
      jwt = issueAccess user.id mod.env.accessExpires now ∧
      usr = sanitizeUser (some user.toRecord) ∧
      cks = [{ name := REFRESH_COOKIE_NAME,
               value := .tok (jwtSign user.id "refresh" mod.env.refreshSecret now
                 mod.refreshMaxAge),
               httpOnly := true, secure := isHttps req,
               sameSite := if isHttps req then "none" else "lax",
               path := "/", maxAge := mod.refreshMaxAge }] := by
  unfold customLogin at h
  split at h
  · exact absurd h (by simp)
  · split at h
    · exact absurd h (by simp)
    · split at h
      · exact absurd h (by simp)
      · rename_i user hfind hvp
        refine ⟨user, hfind, by simpa using hvp, ?_⟩
        obtain ⟨h1, h2⟩ := Response.mk.inj h
        obtain ⟨hj, hu⟩ := Outcome.okLogin.inj h1
        exact ⟨hj.symm, hu.symm, h2.symm⟩

/-- Inversion of a successful refresh: the cookie was present, verification
and the purpose check passed, the user exists, and no cookie was set. -/
theorem refreshTokenHandler_ok_inv {mod : AppModule} {db : List User} {now : Nat}
    {cookie : Option Token} {jwt : AccessToken} {usr : Option UserRecord}
    {cks : List SetCookieOp}
    (h : refreshTokenHandler mod db now cookie = ⟨.okLogin jwt usr, cks⟩) :
    ∃ t p user, cookie = some t ∧ jwtVerify t mod.env.refreshSecret now = .ok p ∧
      p.typ = "refresh" ∧ findById db p.id = some user ∧
      jwt = issueAccess user.id mod.env.accessExpires now ∧
      usr = sanitizeUser (some user.toRecord) ∧ cks = [] := by
  unfold refreshTokenHandler at h
  split at h
  · exact absurd h (by simp)
  · rename_i token
    rcases hv : jwtVerify token mod.env.refreshSecret now with e | p
    · have hb : refreshTryBody mod db now token = ⟨.thrown, []⟩ := by
        unfold refreshTryBody
        rw [hv]
      rw [hb] at h
      exact absurd h (by simp [tryCatchJS])
    · by_cases hp : p.typ = "refresh"
      · rcases hfind : findById db p.id with _ | user
        · have hb : refreshTryBody mod db now token =
              ⟨.unauthorized "유저가 존재하지 않습니다.", []⟩ := by
            unfold refreshTryBody
            rw [hv]
            simp [hp, hfind]
          rw [hb] at h
          exact absurd h (by simp [tryCatchJS])
        · have hb : refreshTryBody mod db now token =
              ⟨.okLogin (issueAccess user.id mod.env.accessExpires now)
                (sanitizeUser (some user.toRecord)), []⟩ := by
            unfold refreshTryBody
            rw [hv]
            simp [hp, hfind]
          rw [hb] at h
          simp only [tryCatchJS] at h
          refine ⟨token, p, user, rfl, hv, hp, hfind, ?_⟩
          obtain ⟨h1, h2⟩ := Response.mk.inj h
          obtain ⟨hj, hu⟩ := Outcome.okLogin.inj h1
          exact ⟨hj.symm, hu.symm, h2.symm⟩
      · have hb : refreshTryBody mod db now token =
            ⟨.unauthorized "올바르지 않은 리프레시 토큰", []⟩ := by
          unfold refreshTryBody
          rw [hv]
          simp [hp]
        rw [hb] at h
        exact absurd h (by simp [tryCatchJS])

/-- Refresh with a cookie whose verification fails: the catch branch answers. -/
theorem refresh_verifyError_eq {mod : AppModule} {db : List User} {now : Nat}
    {t : Token} {e : VerifyError}
    (hv : jwtVerify t mod.env.refreshSecret now = .error e) :
    refreshTokenHandler mod db now (some t) =
      ⟨.unauthorized "만료되었거나 유효하지 않은 리프레시 토큰", []⟩ := by
  have hb : refreshTryBody mod db now t = ⟨.thrown, []⟩ := by
    unfold refreshTryBody
    rw [hv]
  show tryCatchJS (refreshTryBody mod db now t) _ = _
  rw [hb]
  rfl

/-- Refresh with a verified token of the wrong purpose. -/
theorem refresh_wrongPurpose_eq {mod : AppModule} {db : List User} {now : Nat}
    {t : Token} {p : RefreshPayload}
    (hv : jwtVerify t mod.env.refreshSecret now = .ok p) (hp : p.typ ≠ "refresh") :
    refreshTokenHandler mod db now (some t) =
      ⟨.unauthorized "올바르지 않은 리프레시 토큰", []⟩ := by
  have hb : refreshTryBody mod db now t =
      ⟨.unauthorized "올바르지 않은 리프레시 토큰", []⟩ := by
    unfold refreshTryBody
    rw [hv]
    simp [hp]
  show tryCatchJS (refreshTryBody mod db now t) _ = _
  rw [hb]
  rfl

/-- Refresh with a verified refresh token whose user id no longer exists. -/
theorem refresh_noUser_eq {mod : AppModule} {db : List User} {now : Nat}
    {t : Token} {p : RefreshPayload}
    (hv : jwtVerify t mod.env.refreshSecret now = .ok p) (hp : p.typ = "refresh")
    (hfind : findById db p.id = none) :
    refreshTokenHandler mod db now (some t) =
      ⟨.unauthorized "유저가 존재하지 않습니다.", []⟩ := by
  have hb : refreshTryBody mod db now t =
      ⟨.unauthorized "유저가 존재하지 않습니다.", []⟩ := by
    unfold refreshTryBody
    rw [hv]
    simp [hp, hfind]
  show tryCatchJS (refreshTryBody mod db now t) _ = _
  rw [hb]
  rfl

/-- Refresh on the all-checks-pass path mints a fresh access token. -/
theorem refresh_ok_eq {mod : AppModule} {db : List User} {now : Nat}
    {t : Token} {p : RefreshPayload} {user : User}
    (hv : jwtVerify t mod.env.refreshSecret now = .ok p) (hp : p.typ = "refresh")
    (hfind : findById db p.id = some user) :
    refreshTokenHandler mod db now (some t) =
      ⟨.okLogin (issueAccess user.id mod.env.accessExpires now)
        (sanitizeUser (some user.toRecord)), []⟩ := by
  have hb : refreshTryBody mod db now t =
      ⟨.okLogin (issueAccess user.id mod.env.accessExpires now)
        (sanitizeUser (some user.toRecord)), []⟩ := by
    unfold refreshTryBody
    rw [hv]
    simp [hp, hfind]
  show tryCatchJS (refreshTryBody mod db now t) _ = _
  rw [hb]
  rfl

/-- C1: the renew operation's failure outcomes are exactly: missing cookie →
unauthorized; any verification failure (expired, bad signature, malformed) →
unauthorized with the distinguishable expired-or-invalid message; verified
token of the wrong purpose → unauthorized (a message distinct from the
cryptographic-failure one); verified token whose user id no longer exists →
unauthorized; every other input succeeds. -/
theorem refresh_failure_taxonomy :
    ∀ (mod : AppModule) (db : List User) (now : Nat) (cookie : Option Token),
      (cookie = none →
        refreshTokenHandler mod db now cookie = ⟨.unauthorized "refresh token 없음", []⟩) ∧
      (∀ (t : Token) (e : VerifyError), cookie = some t →
        jwtVerify t mod.env.refreshSecret now = .error e →
        refreshTokenHandler mod db now cookie =
          ⟨.unauthorized "만료되었거나 유효하지 않은 리프레시 토큰", []⟩) ∧
      (∀ (t : Token) (p : RefreshPayload), cookie = some t →
        jwtVerify t mod.env.refreshSecret now = .ok p → p.typ ≠ "refresh" →
        refreshTokenHandler mod db now cookie =
          ⟨.unauthorized "올바르지 않은 리프레시 토큰", []⟩) ∧
      (∀ (t : Token) (p : RefreshPayload), cookie = some t →
        jwtVerify t mod.env.refreshSecret now = .ok p → p.typ = "refresh" →
        findById db p.id = none →
        refreshTokenHandler mod db now cookie =
          ⟨.unauthorized "유저가 존재하지 않습니다.", []⟩) ∧
      (∀ (t : Token) (p : RefreshPayload) (user : User), cookie = some t →
        jwtVerify t mod.env.refreshSecret now = .ok p → p.typ = "refresh" →
        findById db p.id = some user →
        refreshTokenHandler mod db now cookie =
          ⟨.okLogin (issueAccess user.id mod.env.accessExpires now)
            (sanitizeUser (some user.toRecord)), []⟩) ∧
      ("만료되었거나 유효하지 않은 리프레시 토큰" ≠ "올바르지 않은 리프레시 토큰" ∧
       "만료되었거나 유효하지 않은 리프레시 토큰" ≠ "refresh token 없음" ∧
       "만료되었거나 유효하지 않은 리프레시 토큰" ≠ "유저가 존재하지 않습니다.") := by
  intro mod db now cookie
  refine ⟨?_, ?_, ?_, ?_, ?_, by decide, by decide, by decide⟩
  · rintro rfl
    rfl
  · rintro t e rfl hv
    exact refresh_verifyError_eq hv
  · rintro t p rfl hv hp
    exact refresh_wrongPurpose_eq hv hp
  · rintro t p rfl hv hp hfind
    exact refresh_noUser_eq hv hp hfind
  · rintro t p user rfl hv hp hfind
    exact refresh_ok_eq hv hp hfind

/-- Witness for C1: a malformed cookie is answered with the
expired-or-invalid message. -/
theorem refresh_failure_taxonomy_witness :
    refreshTokenHandler testMod [] 0 (some (.malformed "x")) =
      ⟨.unauthorized "만료되었거나 유효하지 않은 리프레시 토큰", []⟩ :=
  (refresh_failure_taxonomy testMod [] 0 (some (.malformed "x"))).2.1
    (.malformed "x") .malformedToken rfl rfl

/-- C9: the transport security detector returns true exactly when the
declared protocol is "https" or the connection-is-secure signal is set; in
particular https/false → true, http/true → true, http/false → false. -/
theorem transport_security_detector :
    isHttps ⟨"https", false⟩ = true ∧ isHttps ⟨"http", true⟩ = true ∧
    isHttps ⟨"http", false⟩ = false ∧
    (∀ (p : String) (s : Bool), isHttps ⟨p, s⟩ = true ↔ (p = "https" ∨ s = true)) := by
  refine ⟨by decide, by decide, by decide, fun p s => ?_⟩
  simp [isHttps]

/-- C4: on every `<integer><unit>` string with unit in {s, m, h, d} the
Duration Parser returns the integer times the unit factor (s = 1000,
m = 60000, h = 3600000, d = 86400000), and on every other string it fails
with an error. -/
theorem duration_parser_contract :
    unitFactor 's' = some 1000 ∧ unitFactor 'm' = some 60000 ∧
    unitFactor 'h' = some 3600000 ∧ unitFactor 'd' = some 86400000 ∧
    (∀ (ds : List Char) (u : Char) (f : Nat),
        ds ≠ [] → ds.all Char.isDigit = true → unitFactor u = some f →
        parseExpiresToMs ⟨ds ++ [u]⟩ = .ok (digitsVal ds * f)) ∧
    (∀ s : String,
        (¬ ∃ (ds : List Char) (u : Char), s.data = ds ++ [u] ∧ ds ≠ [] ∧
            ds.all Char.isDigit = true ∧ (unitFactor u).isSome = true) →
        ∃ e, parseExpiresToMs s = .error e) :=
  ⟨rfl, rfl, rfl, rfl, parse_ok_of_form, parse_error_of_not_form⟩

/-- Witness for C4: "15m" parses to 900000 ms and a lone non-digit fails. -/
theorem duration_parser_contract_witness :
    parseExpiresToMs ⟨['1', '5'] ++ ['m']⟩ = .ok (digitsVal ['1', '5'] * 60000) ∧
    ∃ e, parseExpiresToMs ⟨['x']⟩ = .error e :=
  ⟨duration_parser_contract.2.2.2.2.1 ['1', '5'] 'm' 60000 (by decide) (by decide) rfl,
   duration_parser_contract.2.2.2.2.2 ⟨['x']⟩ (by
     rintro ⟨ds, u, hdata, hne, -, -⟩
     have hlen : ds.length + 1 = 1 := by
       have := congrArg List.length hdata
       simpa using this.symm
     exact hne (List.eq_nil_of_length_eq_zero (by omega)))⟩

/-- No sensitive key survives the filter. -/
theorem sensitive_false_of_mem {u : UserRecord} {k v : String}
    (hm : (k, v) ∈ u.filter (fun kv => !sensitiveKey kv.1)) : sensitiveKey k = false := by
  have := (List.mem_filter.mp hm).2
  simpa using this

/-- C3: the user projection removes exactly the keys `password`,
`resetPasswordToken` and `confirmationToken`, keeps every other entry (in
order, unchanged), maps absence to absence, and — the embedding being pure —
never mutates its input; consequently the user record in a successful login
or refresh body never contains a sensitive key. -/
theorem sanitize_user_projection :
    sanitizeUser none = none ∧
    (∀ u : UserRecord, ∃ out, sanitizeUser (some u) = some out ∧
        out.Sublist u ∧
        (∀ k v : String, (k, v) ∈ out ↔
          ((k, v) ∈ u ∧ k ≠ "password" ∧ k ≠ "resetPasswordToken" ∧
           k ≠ "confirmationToken"))) ∧
    (∀ (mod : AppModule) (db : List User) (vp : String → String → Bool) (now : Nat)
       (req : Request) (idf pw : String) (jwt : AccessToken) (usr : Option UserRecord)
       (cks : List SetCookieOp) (rec : UserRecord) (k v : String),
       customLogin mod db vp now req idf pw = ⟨.okLogin jwt usr, cks⟩ →
       usr = some rec → (k, v) ∈ rec → sensitiveKey k = false) ∧
    (∀ (mod : AppModule) (db : List User) (now : Nat) (cookie : Option Token)
       (jwt : AccessToken) (usr : Option UserRecord) (cks : List SetCookieOp)
       (rec : UserRecord) (k v : String),
       refreshTokenHandler mod db now cookie = ⟨.okLogin jwt usr, cks⟩ →
       usr = some rec → (k, v) ∈ rec → sensitiveKey k = false) := by
  refine ⟨rfl, ?_, ?_, ?_⟩
  · intro u
    exact ⟨_, rfl, List.filter_sublist _, fun k v => mem_sanitize⟩
  · intro mod db vp now req idf pw jwt usr cks rec k v h husr hm
    obtain ⟨user, -, -, -, husr2, -⟩ := customLogin_ok_inv h
    rw [husr2] at husr
    have hrec : rec = user.toRecord.filter (fun kv => !sensitiveKey kv.1) := by
      simpa [sanitizeUser] using husr.symm
    rw [hrec] at hm
    exact sensitive_false_of_mem hm
  · intro mod db now cookie jwt usr cks rec k v h husr hm
    obtain ⟨t, p, user, -, -, -, -, -, husr2, -⟩ := refreshTokenHandler_ok_inv h
    rw [husr2] at husr
    have hrec : rec = user.toRecord.filter (fun kv => !sensitiveKey kv.1) := by
      simpa [sanitizeUser] using husr.symm
    rw [hrec] at hm
    exact sensitive_false_of_mem hm

/-- Witness for C3: instantiated on a concrete successful login of `alice`. -/
theorem sanitize_user_projection_witness : sensitiveKey "email" = false :=
  sanitize_user_projection.2.2.1 testMod [alice] alwaysValid 0 ⟨"http", false⟩
    "alice" "pw" (issueAccess 1 "15m" 0) (sanitizeUser (some alice.toRecord))
    [testLoginCookie] (alice.toRecord.filter (fun kv => !sensitiveKey kv.1))
    "email" "alice@example.com" (by decide) rfl (by decide)

/-- C5: an unregistered identifier and a registered identifier with a wrong
password produce the same unauthorized status with exactly the same message
text. -/
theorem login_failure_indistinguishable :
    ∀ (mod : AppModule) (db : List User) (vp : String → String → Bool) (now : Nat)
      (req : Request) (idf pw : String), idf ≠ "" → pw ≠ "" →
      (findByIdentifier db idf = none →
        customLogin mod db vp now req idf pw =
          ⟨.unauthorized "잘못된 아이디/비밀번호입니다.", []⟩) ∧
      (∀ user : User, findByIdentifier db idf = some user → vp pw user.password = false →
        customLogin mod db vp now req idf pw =
          ⟨.unauthorized "잘못된 아이디/비밀번호입니다.", []⟩) := by
  intro mod db vp now req idf pw hidf hpw
  have hguard : (idf == "" || pw == "") = false := by
    simp [hidf, hpw]
  constructor
  · intro hfind
    simp [customLogin, hguard, hfind]
  · intro user hfind hvp
    simp [customLogin, hguard, hfind, hvp]

/-- Witness for C5: unknown user and wrong password give identical
responses. -/
theorem login_failure_indistinguishable_witness :
    customLogin testMod [] neverValid 0 ⟨"http", false⟩ "alice" "pw" =
      ⟨.unauthorized "잘못된 아이디/비밀번호입니다.", []⟩ ∧
    customLogin testMod [alice] neverValid 0 ⟨"http", false⟩ "alice" "pw" =
      ⟨.unauthorized "잘못된 아이디/비밀번호입니다.", []⟩ :=
  ⟨(login_failure_indistinguishable testMod [] neverValid 0 ⟨"http", false⟩ "alice" "pw"
      (by decide) (by decide)).1 rfl,
   (login_failure_indistinguishable testMod [alice] neverValid 0 ⟨"http", false⟩ "alice" "pw"
      (by decide) (by decide)).2 alice (by decide) rfl⟩

/-- C2: on every configuration accepted at module load, the maxAge of the
renewal cookie set by a successful login equals the Duration Parser's output
for the configured renewal lifetime. -/
theorem login_cookie_maxage_eq_parse :
    ∀ (env : Env) (mod : AppModule), loadModule env = .ok mod →
    ∀ (db : List User) (vp : String → String → Bool) (now : Nat) (req : Request)
      (idf pw : String) (jwt : AccessToken) (usr : Option UserRecord)
      (cks : List SetCookieOp),
      customLogin mod db vp now req idf pw = ⟨.okLogin jwt usr, cks⟩ →
      ∃ c, cks = [c] ∧ parseExpiresToMs env.refreshExpires = .ok c.maxAge := by
  intro env mod hload db vp now req idf pw jwt usr cks h
  obtain ⟨user, -, -, -, -, hcks⟩ := customLogin_ok_inv h
  have hparse : parseExpiresToMs env.refreshExpires = .ok mod.refreshMaxAge := by
    unfold loadModule at hload
    rcases hp : parseExpiresToMs env.refreshExpires with e | m
    · rw [hp] at hload
      exact absurd hload (by simp)
    · rw [hp] at hload
      have hm : AppModule.mk env m = mod := by
        simpa using hload
      subst hm
      rfl
  exact ⟨_, hcks, hparse⟩

/-- Witness for C2: under the default configuration the cookie's maxAge is
the parse of "7d". -/
theorem login_cookie_maxage_eq_parse_witness :
    ∃ c, [testLoginCookie] = [c] ∧ parseExpiresToMs testEnv.refreshExpires = .ok c.maxAge :=
  login_cookie_maxage_eq_parse testEnv testMod rfl [alice] alwaysValid 0
    ⟨"http", false⟩ "alice" "pw" (issueAccess 1 "15m" 0)
    (sanitizeUser (some alice.toRecord)) [testLoginCookie] (by decide)

/-- Every login outcome is an explicit bad-request, unauthorized or success. -/
theorem customLogin_outcome_cases (mod : AppModule) (db : List User)
    (vp : String → String → Bool) (now : Nat) (req : Request) (idf pw : String) :
    (∃ m, (customLogin mod db vp now req idf pw).outcome = .badRequest m) ∨
    (∃ m, (customLogin mod db vp now req idf pw).outcome = .unauthorized m) ∨
    (∃ j u, (customLogin mod db vp now req idf pw).outcome = .okLogin j u) := by
  unfold customLogin
  split
  · exact .inl ⟨_, rfl⟩
  · split
    · exact .inr (.inl ⟨_, rfl⟩)
    · split
      · exact .inr (.inl ⟨_, rfl⟩)
      · exact .inr (.inr ⟨_, _, rfl⟩)

/-- Every refresh outcome is an explicit unauthorized or success. -/
theorem refresh_outcome_cases (mod : AppModule) (db : List User) (now : Nat)
    (cookie : Option Token) :
    (∃ m, (refreshTokenHandler mod db now cookie).outcome = .unauthorized m) ∨
    (∃ j u, (refreshTokenHandler mod db now cookie).outcome = .okLogin j u) := by
  rcases cookie with _ | token
  · exact .inl ⟨_, rfl⟩
  · rcases hv : jwtVerify token mod.env.refreshSecret now with e | p
    · rw [refresh_verifyError_eq hv]
      exact .inl ⟨_, rfl⟩
    · by_cases hp : p.typ = "refresh"
      · rcases hfind : findById db p.id with _ | user
        · rw [refresh_noUser_eq hv hp hfind]
          exact .inl ⟨_, rfl⟩
        · rw [refresh_ok_eq hv hp hfind]
          exact .inr ⟨_, _, rfl⟩
      · rw [refresh_wrongPurpose_eq hv hp]
        exact .inl ⟨_, rfl⟩

/-- C6: no session operation ever throws uncaught: on every input the login,
refresh and logout handlers return an explicit bad-request, unauthorized or
success outcome, with the refresh verification failure caught and translated
to unauthorized. -/
theorem handlers_never_throw :
    ∀ (mod : AppModule) (db : List User) (vp : String → String → Bool) (now : Nat)
      (req : Request) (idf pw : String) (cookie : Option Token),
      (customLogin mod db vp now req idf pw).outcome ≠ .thrown ∧
      (refreshTokenHandler mod db now cookie).outcome ≠ .thrown ∧
      (logout req cookie).outcome ≠ .thrown ∧
      ((∃ m, (customLogin mod db vp now req idf pw).outcome = .badRequest m) ∨
       (∃ m, (customLogin mod db vp now req idf pw).outcome = .unauthorized m) ∨
       (∃ j u, (customLogin mod db vp now req idf pw).outcome = .okLogin j u)) ∧
      ((∃ m, (refreshTokenHandler mod db now cookie).outcome = .unauthorized m) ∨
       (∃ j u, (refreshTokenHandler mod db now cookie).outcome = .okLogin j u)) ∧
      (logout req cookie).outcome = .okAck := by
  intro mod db vp now req idf pw cookie
  refine ⟨?_, ?_, by simp [logout], customLogin_outcome_cases mod db vp now req idf pw,
    refresh_outcome_cases mod db now cookie, rfl⟩
  · rcases customLogin_outcome_cases mod db vp now req idf pw with
      ⟨m, hm⟩ | ⟨m, hm⟩ | ⟨j, u, hm⟩ <;> simp [hm]
  · rcases refresh_outcome_cases mod db now cookie with ⟨m, hm⟩ | ⟨j, u, hm⟩ <;> simp [hm]

/-- The try-block body of refresh performs no cookie write in any branch. -/
theorem refreshTryBody_cookies (mod : AppModule) (db : List User) (now : Nat)
    (token : Token) : (refreshTryBody mod db now token).cookies = [] := by
  unfold refreshTryBody
  split
  · rfl
  · split
    · rfl
    · split
      · rfl
      · rfl

/-- C7: the renew operation never modifies the renewal cookie: on every
input, success or failure, it performs no `ctx.cookies.set` at all — no new
renewal token, no max-age extension. -/
theorem refresh_never_touches_cookie :
    ∀ (mod : AppModule) (db : List User) (now : Nat) (cookie : Option Token),
      (refreshTokenHandler mod db now cookie).cookies = [] := by
  intro mod db now cookie
  rcases cookie with _ | token
  · rfl
  · show (tryCatchJS (refreshTryBody mod db now token)
      ⟨.unauthorized "만료되었거나 유효하지 않은 리프레시 토큰", []⟩).cookies = []
    unfold tryCatchJS
    have hc := refreshTryBody_cookies mod db now token
    split
    · simpa using hc
    · exact hc

/-- C8: logout always acknowledges with `{ok: true}`, whether or not a
session cookie is present, and its cookie-clearing operation uses an empty
value, `maxAge 0`, and the same name, path, httpOnly and secure/sameSite
computation as the login cookie. -/
theorem logout_always_ok_and_attrs_match :
    ∀ (req : Request) (cookie : Option Token),
      (logout req cookie).outcome = .okAck ∧
      (logout req cookie).cookies =
        [{ name := REFRESH_COOKIE_NAME, value := .empty, httpOnly := true,
           secure := isHttps req, sameSite := if isHttps req then "none" else "lax",
           path := "/", maxAge := 0 }] ∧
      (∀ (mod : AppModule) (db : List User) (vp : String → String → Bool) (now : Nat)
         (idf pw : String) (jwt : AccessToken) (usr : Option UserRecord)
         (lc : SetCookieOp),
         customLogin mod db vp now req idf pw = ⟨.okLogin jwt usr, [lc]⟩ →
         lc.name = REFRESH_COOKIE_NAME ∧ lc.path = "/" ∧ lc.httpOnly = true ∧
         lc.secure = isHttps req ∧
         lc.sameSite = (if isHttps req then "none" else "lax")) := by
  intro req cookie
  refine ⟨rfl, rfl, ?_⟩
  intro mod db vp now idf pw jwt usr lc h
  obtain ⟨user, -, -, -, -, hcks⟩ := customLogin_ok_inv h
  have hlc : lc =
      { name := REFRESH_COOKIE_NAME,
        value := .tok (jwtSign user.id "refresh" mod.env.refreshSecret now
          mod.refreshMaxAge),
        httpOnly := true, secure := isHttps req,
        sameSite := if isHttps req then "none" else "lax",
        path := "/", maxAge := mod.refreshMaxAge } := by
    simpa using hcks
  rw [hlc]
  exact ⟨rfl, rfl, rfl, rfl, rfl⟩

/-- Witness for C8: logout over plain HTTP, compared with the concrete login
cookie set for `alice`. -/
theorem logout_always_ok_and_attrs_match_witness :
    (logout ⟨"http", false⟩ none).outcome = .okAck ∧
    (testLoginCookie.name = REFRESH_COOKIE_NAME ∧ testLoginCookie.path = "/" ∧
     testLoginCookie.httpOnly = true ∧ testLoginCookie.secure = isHttps ⟨"http", false⟩ ∧
     testLoginCookie.sameSite = (if isHttps ⟨"http", false⟩ then "none" else "lax")) :=
  ⟨(logout_always_ok_and_attrs_match ⟨"http", false⟩ none).1,
   (logout_always_ok_and_attrs_match ⟨"http", false⟩ none).2.2 testMod [alice]
     alwaysValid 0 "alice" "pw" (issueAccess 1 "15m" 0)
     (sanitizeUser (some alice.toRecord)) testLoginCookie (by decide)⟩

/-- C10: a renewal token minted by login — payload carrying the user's id and
the renewal purpose marker, signed with the renewal secret — presented to the
renew operation before its expiry under the same secret passes signature
verification and the purpose check and yields the original user id. -/
theorem login_refresh_round_trip :
    ∀ (mod : AppModule) (db : List User) (vp : String → String → Bool) (now : Nat)
      (req : Request) (idf pw : String) (jwt : AccessToken) (usr : Option UserRecord)
      (c : SetCookieOp) (now2 : Nat),
      customLogin mod db vp now req idf pw = ⟨.okLogin jwt usr, [c]⟩ →
      now2 < now + mod.refreshMaxAge →
      ∃ (t : Token) (p : RefreshPayload), c.value = .tok t ∧
        jwtVerify t mod.env.refreshSecret now2 = .ok p ∧
        p.typ = "refresh" ∧ p.id = jwt.id ∧
        (∀ (db2 : List User) (u2 : User), findById db2 p.id = some u2 →
          refreshTokenHandler mod db2 now2 (some t) =
            ⟨.okLogin (issueAccess u2.id mod.env.accessExpires now2)
              (sanitizeUser (some u2.toRecord)), []⟩) := by
  intro mod db vp now req idf pw jwt usr c now2 h hlt
  obtain ⟨user, -, -, hjwt, -, hcks⟩ := customLogin_ok_inv h
  have hc : c =
      { name := REFRESH_COOKIE_NAME,
        value := .tok (jwtSign user.id "refresh" mod.env.refreshSecret now
          mod.refreshMaxAge),
        httpOnly := true, secure := isHttps req,
        sameSite := if isHttps req then "none" else "lax",
        path := "/", maxAge := mod.refreshMaxAge } := by
    simpa using hcks
  have hv : jwtVerify (jwtSign user.id "refresh" mod.env.refreshSecret now mod.refreshMaxAge)
      mod.env.refreshSecret now2 = .ok ⟨user.id, "refresh"⟩ := by
    unfold jwtSign jwtVerify
    simp [Nat.not_le.mpr hlt]
  refine ⟨jwtSign user.id "refresh" mod.env.refreshSecret now mod.refreshMaxAge,
    ⟨user.id, "refresh"⟩, by rw [hc], hv, rfl, by rw [hjwt]; rfl, ?_⟩
  intro db2 u2 hfind
  exact refresh_ok_eq hv rfl hfind

/-- Witness for C10: the concrete cookie minted for `alice` at clock 0,
renewed at clock 5. -/
theorem login_refresh_round_trip_witness :
    ∃ (t : Token) (p : RefreshPayload), testLoginCookie.value = .tok t ∧
      jwtVerify t testMod.env.refreshSecret 5 = .ok p ∧
      p.typ = "refresh" ∧ p.id = (issueAccess 1 "15m" 0).id ∧
      (∀ (db2 : List User) (u2 : User), findById db2 p.id = some u2 →
        refreshTokenHandler testMod db2 5 (some t) =
          ⟨.okLogin (issueAccess u2.id testMod.env.accessExpires 5)
            (sanitizeUser (some u2.toRecord)), []⟩) :=
  login_refresh_round_trip testMod [alice] alwaysValid 0 ⟨"http", false⟩ "alice" "pw"
    (issueAccess 1 "15m" 0) (sanitizeUser (some alice.toRecord)) testLoginCookie 5
    (by decide) (by decide)
